import Mathlib

set_option maxRecDepth 8000

/-
Verification development for the chaichat streaming conversation engine.

The definitions below are a shallow embedding of the code that drives a chat
turn, translated from:
  - src/src/hooks/messageHandlers.ts   (sendMessageHandler, startStreaming)
  - src/unnamed/part_004               (useChat: the autosave effect)

Times are modelled as naturals (milliseconds), message ids and abort-handle
ids as naturals drawn from counters (the code uses crypto.randomUUID and
AbortController objects; only identity matters here).  Await points of the
single-threaded event loop are modelled by interleaving events in a trace.
-/

namespace ChaiChat

/-- Role of a chat message (src/src/types, role ∈ user | assistant | system). -/
inductive Role
  | user
  | assistant
  | system
deriving DecidableEq, Repr

/-- ChatMessage record: id, role, content, timestamp, optional characterId. -/
structure ChatMessage where
  id : Nat
  role : Role
  content : String
  timestamp : Nat
  characterId : Option Nat := none
deriving DecidableEq, Repr

/-- Character (persona): id, name, description. -/
structure Character where
  id : Nat
  name : String
  description : String
deriving DecidableEq, Repr

/- Context window builder: messageHandlers.ts lines 122-169. -/

/-- Literal piece of the template at messageHandlers.ts line 126. -/
def characterPromptPrefix : String := "You are roleplaying as "

/-- Literal ". " separating name and description in the template. -/
def dotSep : String := ". "

/-- Literal piece of the template between the description and the
    never-break-character instruction (lines 128-131). -/
def characterInstructionsA : String :=
  "\n\nEmbody this character completely:\n- Respond in character at all times\n- Use the character\x27s personality, speaking style, and expertise\n- Stay true to the character\x27s role and background\n- "

/-- Literal in-character instruction of line 132. -/
def neverBreakCharacter : String :=
  "Never break character or mention that you are an AI assistant"

/-- Literal piece of the template before the final name mention (line 133). -/
def characterInstructionsB : String := "\n- Respond as if you truly are "

/-- The characterPrompt template literal of messageHandlers.ts lines 126-133,
    written as the concatenation of its literal pieces and interpolations. -/
def characterPrompt (c : Character) : String :=
  characterPromptPrefix ++ c.name ++ dotSep ++ c.description ++
    characterInstructionsA ++ neverBreakCharacter ++ characterInstructionsB ++ c.name

/-- Lines 123-140: effectiveSystemPrompt starts as the user system prompt; a
    bound character prepends the character prompt (joined by a blank line when
    the user system prompt is non-empty). -/
def effectiveSystemPrompt (systemPrompt : String) (ch : Option Character) : String :=
  match ch with
  | none => systemPrompt
  | some c =>
      if systemPrompt = "" then characterPrompt c
      else characterPrompt c ++ "\n\n" ++ systemPrompt

/-- Lines 142-152: the system message list is empty when the effective system
    prompt is empty, else a single system turn carrying it.  The id of the
    generated message (crypto.randomUUID in the code) is modelled as 0. -/
def systemMessages (esp : String) : List ChatMessage :=
  if esp = "" then []
  else [{ id := 0, role := Role.system, content := esp, timestamp := 0 }]

/-- Lines 153-162: the summary message list is empty when chatSummary is
    empty, else a single system turn "Conversation summary: " ++ summary. -/
def summaryMessages (chatSummary : String) : List ChatMessage :=
  if chatSummary = "" then []
  else [{ id := 1, role := Role.system,
          content := "Conversation summary: " ++ chatSummary, timestamp := 0 }]

/-- JavaScript Array.prototype.slice(-4): the last four elements (the whole
    list when it has fewer than four). -/
def lastN (n : Nat) (xs : List ChatMessage) : List ChatMessage :=
  xs.drop (xs.length - n)

/-- Lines 163-169: messageHistory = systemMessage ++ summaryMessage ++
    currentMessages.slice(-4) ++ [userMessage]. -/
def buildMessageHistory (systemPrompt : String) (ch : Option Character)
    (chatSummary : String) (currentMessages : List ChatMessage)
    (userMessage : ChatMessage) : List ChatMessage :=
  systemMessages (effectiveSystemPrompt systemPrompt ch)
    ++ summaryMessages chatSummary
    ++ lastN 4 currentMessages
    ++ [userMessage]

/-- The prompt part that precedes the history subset: system turn(s) followed
    by the optional summary turn. -/
def promptPreamble (systemPrompt : String) (ch : Option Character)
    (chatSummary : String) : List ChatMessage :=
  systemMessages (effectiveSystemPrompt systemPrompt ch) ++ summaryMessages chatSummary

/- Stream coalescer and generation teardown: messageHandlers.ts lines 171-303.

The body of startStreaming is an event loop: it awaits deltas from the
provider generator, while the trailing 300ms timer callback and stopGeneration
(abort) may run at the await points.  We model one generation as a machine
consuming a trace of events:
  - delta chunk now : the generator yields a chunk, Date.now() = now;
  - timerFire now   : the pending trailing timeout callback runs;
  - abortSignal     : abortControllerRef.current.abort() is called;
  - streamEnd       : the generator finishes normally (post-loop code runs);
  - streamError     : the generator (or loop body) throws; the catch runs.
Once the loop has been left (ended) further events are ignored; in the code
the only post-teardown effect not modelled is a trailing timer armed before an
exception, which would emit the current full response (never shorter content),
so no claim below depends on it. -/

inductive StreamEvent
  | delta (chunk : String) (now : Nat)
  | timerFire (now : Nat)
  | abortSignal
  | streamEnd
  | streamError (name : String) (msg : String)
deriving DecidableEq, Repr

/-- State of one generation: the locals of startStreaming (fullResponse,
    lastUpdate, updateTimeout) plus the observable effects on the React state
    (the assistant placeholder's presence and content, the sequence of content
    snapshots handed to setMessages, and the error banner). -/
structure StreamState where
  aborted : Bool
  ended : Bool
  fullResponse : String
  lastUpdate : Nat
  timerPending : Bool
  assistantPresent : Bool
  assistantContent : String
  emissions : List String
  error : Option String
deriving DecidableEq, Repr

/-- State at line 171-173: empty response, lastUpdate = Date.now() = t0, no
    pending timer; the empty assistant placeholder was appended at line 80. -/
def initStreamState (t0 : Nat) : StreamState :=
  { aborted := false, ended := false, fullResponse := "", lastUpdate := t0,
    timerPending := false, assistantPresent := true, assistantContent := "",
    emissions := [], error := none }

/-- A setMessages call that rewrites the placeholder's content to a snapshot
    (lines 199-205, 213-219, 235-241). -/
def emitSnapshot (s : StreamState) (content : String) : StreamState :=
  { s with assistantContent := content, emissions := s.emissions ++ [content] }

/-- One event of the generation loop, lines 180-303.  On delta: the aborted
    check breaks out of the loop and runs the post-loop code (clear timer;
    final flush skipped because aborted); otherwise the chunk is appended and
    either emitted immediately (now - lastUpdate > 100, i.e. lastUpdate + 100
    < now over naturals) cancelling any pending timer, or a single trailing
    timer is left pending.  The timer callback reads fullResponse at fire time
    and skips the emit when aborted, but always resets lastUpdate.  On normal
    stream end the pending timer is cleared and a final unconditional flush
    runs unless aborted.  On an exception, the catch removes the placeholder
    when the error is an AbortError and otherwise surfaces the message and
    rewrites the placeholder to an Error marker. -/
def stepStream (s : StreamState) (e : StreamEvent) : StreamState :=
  if s.ended = true then s
  else
    match e with
    | StreamEvent.abortSignal => { s with aborted := true }
    | StreamEvent.delta chunk now =>
        if s.aborted = true then
          { s with ended := true, timerPending := false }
        else
          let full := s.fullResponse ++ chunk
          if s.lastUpdate + 100 < now then
            emitSnapshot { s with fullResponse := full, lastUpdate := now,
                                  timerPending := false } full
          else
            { s with fullResponse := full, timerPending := true }
    | StreamEvent.timerFire now =>
        if s.timerPending = true then
          if s.aborted = true then
            { s with timerPending := false, lastUpdate := now }
          else
            emitSnapshot { s with timerPending := false, lastUpdate := now }
              s.fullResponse
        else s
    | StreamEvent.streamEnd =>
        if s.aborted = true then
          { s with ended := true, timerPending := false }
        else
          emitSnapshot { s with ended := true, timerPending := false } s.fullResponse
    | StreamEvent.streamError name msg =>
        if name = "AbortError" then
          { s with ended := true, assistantPresent := false }
        else
          { s with ended := true, error := some msg,
                   assistantContent := "Error: " ++ msg }

/-- Run one generation over a trace of events, starting at time t0. -/
def runStream (events : List StreamEvent) (t0 : Nat) : StreamState :=
  events.foldl stepStream (initStreamState t0)

/-- The chunks of the delta events of a trace, in arrival order. -/
def deltaChunks : List StreamEvent → List String
  | [] => []
  | StreamEvent.delta c _ :: rest => c :: deltaChunks rest
  | _ :: rest => deltaChunks rest

/-- Concatenation of a list of strings, in order. -/
def concatStrings : List String → String
  | [] => ""
  | s :: rest => s ++ concatStrings rest

/-- Events that are part of an uncancelled, error-free delta stream. -/
def isDeltaOrTimer : StreamEvent → Bool
  | StreamEvent.delta _ _ => true
  | StreamEvent.timerFire _ => true
  | _ => false

/-- Events on which the catch handler runs. -/
def isStreamErrorEvent : StreamEvent → Bool
  | StreamEvent.streamError _ _ => true
  | _ => false

/- The send flow: messageHandlers.ts lines 24-117 and the synchronous prefix
of startStreaming (line 121 installs the fresh AbortController).  The awaited
database update between the guards and startStreaming is modelled as atomic
sequencing; dbService calls are recorded in a write log. -/

/-- AI providers (src/src/types). -/
inductive AIProvider
  | ollama
  | groq
deriving DecidableEq, Repr

/-- providerStatus record: connectivity per provider. -/
structure ProviderStatus where
  ollama : Bool
  groq : Bool
deriving DecidableEq, Repr

/-- providerStatus[selectedProvider] (line 49). -/
def providerConnected (ps : ProviderStatus) : AIProvider → Bool
  | AIProvider.ollama => ps.ollama
  | AIProvider.groq => ps.groq

/-- The message of setError at line 50. -/
def notConnectedError : AIProvider → String
  | AIProvider.groq => "Groq is not connected. Please check your connection and API key."
  | AIProvider.ollama => "Ollama is not connected. Please check your connection."

/-- The slice of a ChatSession touched by sendMessageHandler (title and
    updatedAt of the sessions list entries). -/
structure SessionMeta where
  id : Nat
  title : String
  updatedAt : Nat
deriving DecidableEq, Repr

/-- A dbService.updateSession call: session id, optional new title, new
    updatedAt (lines 92-95 and 108-110). -/
inductive DbWrite
  | updateSession (id : Nat) (title : Option String) (updatedAt : Nat)
deriving DecidableEq, Repr

/-- The useChat state read and written by sendMessageHandler.  nextId models
    crypto.randomUUID for message ids, nextHandle models AbortController
    identity; abortedHandles records every handle on which abort() ran. -/
structure AppState where
  selectedModel : String
  selectedProvider : AIProvider
  providerStatus : ProviderStatus
  isLoading : Bool
  currentSessionId : Option Nat
  messages : List ChatMessage
  sessions : List SessionMeta
  systemPrompt : String
  selectedCharacter : Option Character
  chatSummary : String
  error : Option String
  abortHandle : Option Nat
  abortedHandles : List Nat
  dbWrites : List DbWrite
  nextId : Nat
  nextHandle : Nat
deriving DecidableEq, Repr

/-- JavaScript whitespace test used by \s and trim, restricted to the ASCII
    whitespace characters (Unicode space classes are not modelled). -/
def isJsSpaceChar (c : Char) : Bool :=
  c == ' ' || c == '\t' || c == '\n' || c == '\r' || c == '\x0b' || c == '\x0c'

/-- Characters matched by the [\n\r]+ regex of line 88. -/
def isNewlineChar (c : Char) : Bool :=
  c == '\n' || c == '\r'

/-- Replace every maximal run of characters satisfying p by one space
    (the effect of .replace(/X+/g, " ") for a character class X). -/
def collapseRunsAux (p : Char → Bool) : Bool → List Char → List Char
  | _, [] => []
  | prevInRun, c :: cs =>
      if p c then
        if prevInRun then collapseRunsAux p true cs
        else ' ' :: collapseRunsAux p true cs
      else c :: collapseRunsAux p false cs

/-- Collapse runs, starting outside a run. -/
def collapseRuns (p : Char → Bool) (cs : List Char) : List Char :=
  collapseRunsAux p false cs

/-- JavaScript String.prototype.trim over the modelled whitespace class. -/
def jsTrim (s : String) : String :=
  String.mk (((s.data.dropWhile isJsSpaceChar).reverse.dropWhile isJsSpaceChar).reverse)

/-- Lines 87-91: collapse newline runs to spaces, collapse whitespace runs to
    spaces, trim, and keep the first 50 characters. -/
def cleanTitle (content : String) : String :=
  String.mk ((jsTrim (String.mk (collapseRuns isJsSpaceChar
    (collapseRuns isNewlineChar content.data)))).data.take 50)

/-- Lines 54-57: abort any ongoing request before starting a new one.  The
    handle reference itself is left in place (it is replaced inside
    startStreaming). -/
def abortOngoing (s : AppState) : AppState :=
  match s.abortHandle with
  | some h => { s with abortedHandles := h :: s.abortedHandles }
  | none => s

/-- The body of sendMessageHandler after all guards passed: lines 54-121.
    Aborts any ongoing request, appends the user turn and the empty assistant
    placeholder, sets loading, clears the error, updates the session title
    (first message) or timestamp in store and sessions list, and installs the
    fresh AbortController with which startStreaming begins. -/
def sendProceed (content : String) (now : Nat) (s : AppState) : AppState :=
  let s1 := abortOngoing s
  let userMessage : ChatMessage :=
    { id := s1.nextId, role := Role.user, content := content, timestamp := now }
  let assistantMessage : ChatMessage :=
    { id := s1.nextId + 1, role := Role.assistant, content := "", timestamp := now,
      characterId := s1.selectedCharacter.map Character.id }
  let s2 := { s1 with isLoading := true, error := none,
                      messages := s1.messages ++ [userMessage, assistantMessage],
                      nextId := s1.nextId + 2 }
  let sid := s2.currentSessionId.getD 0
  let s3 :=
    if s.messages.length = 0 then
      let cleaned := cleanTitle content
      let title := if cleaned = "" then "New Conversation" else cleaned
      { s2 with dbWrites := s2.dbWrites ++ [DbWrite.updateSession sid (some title) now],
                sessions := s2.sessions.map (fun m : SessionMeta =>
                  if m.id = sid then { m with title := title, updatedAt := now } else m) }
    else
      { s2 with dbWrites := s2.dbWrites ++ [DbWrite.updateSession sid none now],
                sessions := s2.sessions.map (fun m : SessionMeta =>
                  if m.id = sid then { m with updatedAt := now } else m) }
  { s3 with abortHandle := some s3.nextHandle, nextHandle := s3.nextHandle + 1 }

/-- sendMessageHandler, lines 24-308: the guard at line 46 returns when no
    model is selected, a generation is loading, or there is no session; the
    provider check at lines 49-52 only sets the error; otherwise the send
    proceeds. -/
def sendMessage (content : String) (now : Nat) (s : AppState) : AppState :=
  if s.selectedModel = "" ∨ s.isLoading = true ∨ s.currentSessionId = none then s
  else if providerConnected s.providerStatus s.selectedProvider = false then
    { s with error := some (notConnectedError s.selectedProvider) }
  else sendProceed content now s

/-- Lines 244-281: the deferred summarization job streams a summary of the
    turn history and, when its stream finishes, calls
    setChatSummary(newSummary.trim()) unconditionally — the code consults
    neither isLoading nor any generation counter before applying the result. -/
def applySummaryJob (s : AppState) (chunks : List String) : AppState :=
  { s with chatSummary := jsTrim (concatStrings chunks) }

/- Autosave: the useChat effect of src/unnamed/part_004 lines 179-257.  React
runs the cleanup of the previous effect instance (clearTimeout on the armed
save timer) before the body of the new one; the deps include messages and
isLoading, so every message mutation and every loading-flag change re-runs
the effect. -/

/-- The guards of the autosave effect body (part_004 lines 181-183). -/
structure AutosaveInput where
  isInitialized : Bool
  currentSessionId : Option Nat
  isLoading : Bool
  isSwitchingSession : Bool
deriving DecidableEq, Repr

/-- The timer armed by one run of the effect body: none when suppressed,
    some 500 (the debounce quiet period in ms) otherwise. -/
def autosaveArm (inp : AutosaveInput) : Option Nat :=
  if inp.isInitialized = false ∨ inp.currentSessionId = none then none
  else if inp.isLoading = true ∨ inp.isSwitchingSession = true then none
  else some 500

/-- One re-run of the effect: the cleanup cancels the previously armed timer
    (first component: the cancelled timer), the body arms a new one (second
    component). -/
def autosaveEffectRun (inp : AutosaveInput) (prevTimer : Option Nat) :
    Option Nat × Option Nat :=
  (prevTimer, autosaveArm inp)

/-- Events of the autosave life: a dependency change re-runs the effect; an
    armed timer reaching its deadline performs the save. -/
inductive AutosaveEvent
  | depsChange (inp : AutosaveInput)
  | timerExpire
deriving DecidableEq, Repr

/-- Pending timer plus the count of saves performed. -/
structure AutosaveMachine where
  pending : Option Nat
  saves : Nat
deriving DecidableEq, Repr

/-- Autosave step: a deps change clears the old timer and arms per the
    guards; a timer expiry fires the save exactly when a timer is pending. -/
def autosaveStep (m : AutosaveMachine) (e : AutosaveEvent) : AutosaveMachine :=
  match e with
  | AutosaveEvent.depsChange inp => { m with pending := autosaveArm inp }
  | AutosaveEvent.timerExpire =>
      match m.pending with
      | some _ => { pending := none, saves := m.saves + 1 }
      | none => m

/-- Run the autosave machine from the initial state (no timer, no saves). -/
def autosaveRun (events : List AutosaveEvent) : AutosaveMachine :=
  events.foldl autosaveStep { pending := none, saves := 0 }

/-- The inputs of the deps-change events of a trace. -/
def depsInputs : List AutosaveEvent → List AutosaveInput
  | [] => []
  | AutosaveEvent.depsChange i :: rest => i :: depsInputs rest
  | _ :: rest => depsInputs rest

/-- Invariant carried by every reachable stream state: the snapshot emissions
    are length-monotone and each is no longer than the accumulator. -/
def EmisInv (s : StreamState) : Prop :=
  List.Chain' (fun a b : String => a.length ≤ b.length) s.emissions
  ∧ ∀ x ∈ s.emissions, x.length ≤ s.fullResponse.length

/-- States in which the generation can no longer change anything visible. -/
def Frozen (s : StreamState) : Prop :=
  s.aborted = true ∨ s.ended = true

/- Concrete instances used by counterexamples and witnesses. -/

/-- Two deltas arriving more than 100ms apart. -/
def c2Events : List StreamEvent :=
  [StreamEvent.delta "Hi" 200, StreamEvent.delta " there" 250]

/-- A first chunk emitted immediately. -/
def c4Pre : List StreamEvent := [StreamEvent.delta "Hel" 200]

/-- Events arriving after the user cancelled. -/
def c4Post : List StreamEvent :=
  [StreamEvent.delta "lo" 400, StreamEvent.streamEnd]

/-- A user turn with the given id and content. -/
def c3Msg (i : Nat) (content : String) : ChatMessage :=
  { id := i, role := Role.user, content := content, timestamp := i }

/-- An older turn longer than 50 characters, the longest of the history. -/
def c3LongContent : String :=
  "This opening turn carries by far the most substantive and detailed context."

/-- Ten prior turns; the oldest is the longest and substantive. -/
def c3Messages : List ChatMessage :=
  [c3Msg 0 c3LongContent, c3Msg 1 "m1", c3Msg 2 "m2", c3Msg 3 "m3",
   c3Msg 4 "m4", c3Msg 5 "m5", c3Msg 6 "m6", c3Msg 7 "m7",
   c3Msg 8 "m8", c3Msg 9 "m9"]

/-- The new user turn. -/
def c3User : ChatMessage := c3Msg 100 "next question"

/-- A short prior history (three turns). -/
def c3wMsgs : List ChatMessage := [c3Msg 0 "a", c3Msg 1 "b", c3Msg 2 "c"]

/-- A persona instance. -/
def c8Char : Character :=
  { id := 1, name := "Sherlock Holmes", description := "A consulting detective." }

/-- App state with a generation in progress (isLoading, live handle 7). -/
def c1State : AppState :=
  { selectedModel := "llama3", selectedProvider := AIProvider.ollama,
    providerStatus := { ollama := true, groq := false },
    isLoading := true, currentSessionId := some 1, messages := [],
    sessions := [{ id := 1, title := "New Conversation", updatedAt := 0 }],
    systemPrompt := "", selectedCharacter := none, chatSummary := "",
    error := none, abortHandle := some 7, abortedHandles := [],
    dbWrites := [], nextId := 0, nextHandle := 8 }

/-- The same state once the prior generation's finally block cleared
    isLoading (its stale handle still installed). -/
def c1bState : AppState := { c1State with isLoading := false }

/-- Idle state whose selected provider is disconnected. -/
def c10State : AppState :=
  { c1State with isLoading := false,
                 providerStatus := { ollama := false, groq := false } }

/-- State with a rolling summary while a newer generation is in progress. -/
def c5State : AppState := { c1State with chatSummary := "an old rolling summary" }

/-- An autosave effect re-run during streaming, then the timer deadline. -/
def c6Events : List AutosaveEvent :=
  [AutosaveEvent.depsChange
    { isInitialized := true, currentSessionId := some 1,
      isLoading := true, isSwitchingSession := false },
   AutosaveEvent.timerExpire]

/-- Effect inputs for a quiet, initialized conversation. -/
def c6Inp : AutosaveInput :=
  { isInitialized := true, currentSessionId := some 1,
    isLoading := false, isSwitchingSession := false }

/- Helper lemmas. -/

theorem strData_append (a b : String) : (a ++ b).data = a.data ++ b.data := by
  cases a; cases b; rfl

theorem strExt {a b : String} (h : a.data = b.data) : a = b := by
  cases a; cases b; exact congrArg String.mk h

theorem strAppend_assoc (a b c : String) : a ++ b ++ c = a ++ (b ++ c) := by
  apply strExt; simp [strData_append]

theorem strAppend_empty (a : String) : a ++ "" = a := by
  apply strExt; simp [strData_append]

theorem strEmpty_append (a : String) : "" ++ a = a := by
  apply strExt; simp [strData_append]

theorem strLength_append (a b : String) :
    (a ++ b).length = a.length + b.length := String.length_append a b

theorem strLength_le_append (a b : String) : a.length ≤ (a ++ b).length := by
  rw [strLength_append]; omega

/-- Append one element to a chain whose every element relates to it. -/
theorem chainConcat {α : Type} {R : α → α → Prop} {a : α} :
    ∀ l : List α, List.Chain' R l → (∀ x ∈ l, R x a) → List.Chain' R (l ++ [a])
  | [], _, _ => List.chain'_singleton a
  | [x], _, h2 => List.chain'_pair.mpr (h2 x (by simp))
  | x :: y :: ys, h1, h2 => by
      rw [List.cons_append]
      exact List.chain'_cons.mpr ⟨(List.chain'_cons.mp h1).1,
        chainConcat (y :: ys) (List.chain'_cons.mp h1).2
          (fun z hz => h2 z (List.mem_cons_of_mem x hz))⟩

/-- Over delta and timer events with no abort and no error, the loop keeps
    running and fullResponse accumulates every chunk in arrival order. -/
theorem runDeltaTimer :
    ∀ (es : List StreamEvent) (s : StreamState),
      (∀ e ∈ es, isDeltaOrTimer e = true) →
      s.ended = false → s.aborted = false →
      (es.foldl stepStream s).ended = false
      ∧ (es.foldl stepStream s).aborted = false
      ∧ (es.foldl stepStream s).fullResponse
          = s.fullResponse ++ concatStrings (deltaChunks es)
  | [], s, _, hend, hab => by
      simp [deltaChunks, concatStrings, strAppend_empty, hend, hab]
  | e :: rest, s, h, hend, hab => by
      have he : isDeltaOrTimer e = true := h e (List.mem_cons_self e rest)
      have hrest : ∀ x ∈ rest, isDeltaOrTimer x = true :=
        fun x hx => h x (List.mem_cons_of_mem e hx)
      cases e with
      | delta chunk now =>
          have hstep : stepStream s (StreamEvent.delta chunk now)
              = (if s.lastUpdate + 100 < now then
                  emitSnapshot { s with fullResponse := s.fullResponse ++ chunk,
                                        lastUpdate := now, timerPending := false }
                    (s.fullResponse ++ chunk)
                 else { s with fullResponse := s.fullResponse ++ chunk,
                               timerPending := true }) := by
            simp [stepStream, hend, hab]
          by_cases hlt : s.lastUpdate + 100 < now
          · have ih := runDeltaTimer rest
              (emitSnapshot { s with fullResponse := s.fullResponse ++ chunk,
                                     lastUpdate := now, timerPending := false }
                (s.fullResponse ++ chunk)) hrest (by simp [emitSnapshot, hend])
              (by simp [emitSnapshot, hab])
            simp only [List.foldl_cons, hstep, if_pos hlt]
            refine ⟨ih.1, ih.2.1, ?_⟩
            rw [ih.2.2]
            simp [emitSnapshot, deltaChunks, concatStrings, strAppend_assoc]
          · have ih := runDeltaTimer rest
              { s with fullResponse := s.fullResponse ++ chunk, timerPending := true }
              hrest (by simp [hend]) (by simp [hab])
            simp only [List.foldl_cons, hstep, if_neg hlt]
            refine ⟨ih.1, ih.2.1, ?_⟩
            rw [ih.2.2]
            simp [deltaChunks, concatStrings, strAppend_assoc]
      | timerFire now =>
          have hstep : stepStream s (StreamEvent.timerFire now)
              = (if s.timerPending = true then
                  emitSnapshot { s with timerPending := false, lastUpdate := now }
                    s.fullResponse
                 else s) := by
            simp [stepStream, hend, hab]
          by_cases hp : s.timerPending = true
          · have ih := runDeltaTimer rest
              (emitSnapshot { s with timerPending := false, lastUpdate := now }
                s.fullResponse) hrest (by simp [emitSnapshot, hend])
              (by simp [emitSnapshot, hab])
            simp only [List.foldl_cons, hstep, if_pos hp]
            refine ⟨ih.1, ih.2.1, ?_⟩
            rw [ih.2.2]
            simp [emitSnapshot, deltaChunks]
          · have ih := runDeltaTimer rest s hrest hend hab
            simp only [List.foldl_cons, hstep, if_neg hp]
            refine ⟨ih.1, ih.2.1, ?_⟩
            rw [ih.2.2]
            simp [deltaChunks]
      | abortSignal => simp [isDeltaOrTimer] at he
      | streamEnd => simp [isDeltaOrTimer] at he
      | streamError name msg => simp [isDeltaOrTimer] at he

theorem emisInv_emit {s : StreamState} (h : EmisInv s)
    (hc : s.fullResponse.length ≤ c.length) :
    EmisInv { (emitSnapshot s c) with fullResponse := c } := by
  obtain ⟨h1, h2⟩ := h
  constructor
  · exact chainConcat s.emissions h1
      (fun x hx => le_trans (h2 x hx) hc)
  · intro x hx
    simp [emitSnapshot] at hx
    rcases hx with hx | hx
    · exact le_trans (h2 x hx) hc
    · simp [hx]

theorem emisInv_step (s : StreamState) (e : StreamEvent) (h : EmisInv s) :
    EmisInv (stepStream s e) := by
  by_cases hend : s.ended = true
  · simpa [stepStream, hend] using h
  · cases e with
    | abortSignal => simpa [stepStream, hend] using h
    | delta chunk now =>
        by_cases hab : s.aborted = true
        · simp only [stepStream, hend, if_false, Bool.not_eq_true] at *
          simpa [hab] using h
        · simp only [stepStream, Bool.not_eq_true] at *
          rw [if_neg (by simp [hend]), if_neg (by simp [hab])]
          by_cases hlt : s.lastUpdate + 100 < now
          · rw [if_pos hlt]
            have := emisInv_emit (c := s.fullResponse ++ chunk)
              (s := { s with fullResponse := s.fullResponse ++ chunk,
                             lastUpdate := now, timerPending := false })
              (by exact ⟨h.1, fun x hx => le_trans (h.2 x hx) (strLength_le_append _ _)⟩)
              (by simp)
            simpa [emitSnapshot] using this
          · rw [if_neg hlt]
            refine ⟨h.1, fun x hx => ?_⟩
            simp only []
            exact le_trans (h.2 x hx) (strLength_le_append _ _)
    | timerFire now =>
        by_cases hp : s.timerPending = true
        · by_cases hab : s.aborted = true
          · simp only [stepStream]
            rw [if_neg (by simp [hend]), if_pos hp, if_pos hab]
            exact ⟨h.1, fun x hx => h.2 x hx⟩
          · simp only [stepStream]
            rw [if_neg (by simp [hend]), if_pos hp, if_neg hab]
            have := emisInv_emit (c := s.fullResponse)
              (s := { s with timerPending := false, lastUpdate := now })
              (by exact ⟨h.1, fun x hx => h.2 x hx⟩) (le_refl _)
            simpa [emitSnapshot] using this
        · simp only [stepStream]
          rw [if_neg (by simp [hend]), if_neg hp]
          exact h
    | streamEnd =>
        by_cases hab : s.aborted = true
        · simp only [stepStream]
          rw [if_neg (by simp [hend])]
          simp only [hab, if_pos rfl]
          exact ⟨h.1, fun x hx => h.2 x hx⟩
        · simp only [stepStream]
          rw [if_neg (by simp [hend])]
          rw [if_neg hab]
          have := emisInv_emit (c := s.fullResponse)
            (s := { s with ended := true, timerPending := false })
            (by exact ⟨h.1, fun x hx => h.2 x hx⟩) (le_refl _)
          simpa [emitSnapshot] using this
    | streamError name msg =>
        by_cases hn : name = "AbortError"
        · simp only [stepStream]
          rw [if_neg (by simp [hend]), if_pos hn]
          exact ⟨h.1, fun x hx => h.2 x hx⟩
        · simp only [stepStream]
          rw [if_neg (by simp [hend]), if_neg hn]
          exact ⟨h.1, fun x hx => h.2 x hx⟩

theorem emisInv_run :
    ∀ (es : List StreamEvent) (s : StreamState), EmisInv s →
      EmisInv (es.foldl stepStream s)
  | [], _, h => h
  | e :: rest, s, h => emisInv_run rest (stepStream s e) (emisInv_step s e h)

theorem frozen_step (s : StreamState) (e : StreamEvent) (hf : Frozen s)
    (he : isStreamErrorEvent e = false) :
    (stepStream s e).emissions = s.emissions
    ∧ (stepStream s e).assistantContent = s.assistantContent
    ∧ (stepStream s e).assistantPresent = s.assistantPresent
    ∧ Frozen (stepStream s e) := by
  by_cases hend : s.ended = true
  · simp [stepStream, hend, Frozen]
  · have hab : s.aborted = true := by
      rcases hf with h | h
      · exact h
      · exact absurd h hend
    cases e with
    | abortSignal => simp [stepStream, hend, Frozen]
    | delta chunk now => simp [stepStream, hend, hab, Frozen]
    | timerFire now =>
        by_cases hp : s.timerPending = true
        · simp [stepStream, hend, hab, hp, Frozen]
        · simp [stepStream, hend, hab, hp, Frozen]
    | streamEnd => simp [stepStream, hend, hab, Frozen]
    | streamError name msg => simp [isStreamErrorEvent] at he

theorem frozen_run :
    ∀ (es : List StreamEvent) (s : StreamState), Frozen s →
      (∀ e ∈ es, isStreamErrorEvent e = false) →
      (es.foldl stepStream s).emissions = s.emissions
      ∧ (es.foldl stepStream s).assistantContent = s.assistantContent
      ∧ (es.foldl stepStream s).assistantPresent = s.assistantPresent
  | [], _, _, _ => ⟨rfl, rfl, rfl⟩
  | e :: rest, s, hf, he => by
      have h1 := frozen_step s e hf (he e (List.mem_cons_self e rest))
      have ih := frozen_run rest (stepStream s e) h1.2.2.2
        (fun x hx => he x (List.mem_cons_of_mem e hx))
      exact ⟨h1.1 ▸ ih.1, h1.2.1 ▸ ih.2.1, h1.2.2.1 ▸ ih.2.2⟩

/-- The placeholder is removed only by the AbortError catch branch. -/
theorem present_run :
    ∀ (es : List StreamEvent) (s : StreamState),
      s.assistantPresent = true →
      (∀ e ∈ es, isStreamErrorEvent e = false) →
      (es.foldl stepStream s).assistantPresent = true
  | [], _, h, _ => h
  | e :: rest, s, h, he => by
      have hstep : (stepStream s e).assistantPresent = true := by
        by_cases hend : s.ended = true
        · simpa [stepStream, hend] using h
        · cases e with
          | abortSignal => simpa [stepStream, hend] using h
          | delta chunk now =>
              by_cases hab : s.aborted = true
              · simpa [stepStream, hend, hab] using h
              · by_cases hlt : s.lastUpdate + 100 < now
                · simpa [stepStream, hend, hab, hlt, emitSnapshot] using h
                · simpa [stepStream, hend, hab, hlt] using h
          | timerFire now =>
              by_cases hp : s.timerPending = true
              · by_cases hab : s.aborted = true
                · simpa [stepStream, hend, hp, hab] using h
                · simpa [stepStream, hend, hp, hab, emitSnapshot] using h
              · simpa [stepStream, hend, hp] using h
          | streamEnd =>
              by_cases hab : s.aborted = true
              · simpa [stepStream, hend, hab] using h
              · simpa [stepStream, hend, hab, emitSnapshot] using h
          | streamError name msg => simp [isStreamErrorEvent] at he
      exact present_run rest (stepStream s e) hstep
        (fun x hx => he x (List.mem_cons_of_mem e hx))

theorem characterPrompt_data (c : Character) :
    (characterPrompt c).data
      = characterPromptPrefix.data ++ c.name.data ++ dotSep.data
        ++ c.description.data ++ characterInstructionsA.data
        ++ neverBreakCharacter.data ++ characterInstructionsB.data
        ++ c.name.data := by
  simp [characterPrompt, strData_append]

theorem strNe_empty (s : String) (h : 0 < s.length) : ¬ s = "" := by
  intro he
  rw [he] at h
  exact absurd h (by decide)

theorem characterPrompt_length (c : Character) :
    0 < (characterPrompt c).length := by
  have h : (characterPrompt c).length
      = characterPromptPrefix.length + c.name.length + dotSep.length
        + c.description.length + characterInstructionsA.length
        + neverBreakCharacter.length + characterInstructionsB.length
        + c.name.length := by
    simp [characterPrompt, strLength_append]
  have hp : 0 < characterPromptPrefix.length := by decide
  omega

theorem effectiveSystemPrompt_ne (sp : String) (c : Character) :
    ¬ effectiveSystemPrompt sp (some c) = "" := by
  have h := characterPrompt_length c
  simp only [effectiveSystemPrompt]
  by_cases hsp : sp = ""
  · rw [if_pos hsp]
    exact strNe_empty _ h
  · rw [if_neg hsp]
    apply strNe_empty
    rw [strLength_append, strLength_append]
    omega

theorem name_infix_characterPrompt (c : Character) :
    List.IsInfix c.name.data (characterPrompt c).data :=
  ⟨characterPromptPrefix.data,
   dotSep.data ++ c.description.data ++ characterInstructionsA.data
     ++ neverBreakCharacter.data ++ characterInstructionsB.data ++ c.name.data,
   by rw [characterPrompt_data]; simp [List.append_assoc]⟩

theorem description_infix_characterPrompt (c : Character) :
    List.IsInfix c.description.data (characterPrompt c).data :=
  ⟨characterPromptPrefix.data ++ c.name.data ++ dotSep.data,
   characterInstructionsA.data ++ neverBreakCharacter.data
     ++ characterInstructionsB.data ++ c.name.data,
   by rw [characterPrompt_data]; simp [List.append_assoc]⟩

theorem neverBreak_infix_characterPrompt (c : Character) :
    List.IsInfix neverBreakCharacter.data (characterPrompt c).data :=
  ⟨characterPromptPrefix.data ++ c.name.data ++ dotSep.data
     ++ c.description.data ++ characterInstructionsA.data,
   characterInstructionsB.data ++ c.name.data,
   by rw [characterPrompt_data]; simp [List.append_assoc]⟩

theorem infix_effectiveSystemPrompt {x : List Char} (sp : String) (c : Character)
    (h : List.IsInfix x (characterPrompt c).data) :
    List.IsInfix x (effectiveSystemPrompt sp (some c)).data := by
  simp only [effectiveSystemPrompt]
  by_cases hsp : sp = ""
  · rw [if_pos hsp]
    exact h
  · rw [if_neg hsp]
    obtain ⟨u, v, huv⟩ := h
    refine ⟨u, v ++ ("\n\n".data ++ sp.data), ?_⟩
    rw [strData_append, strData_append, ← huv]
    simp [List.append_assoc]

theorem abortOngoing_error (s : AppState) : (abortOngoing s).error = s.error := by
  unfold abortOngoing
  split <;> rfl

theorem abortOngoing_nextHandle (s : AppState) :
    (abortOngoing s).nextHandle = s.nextHandle := by
  unfold abortOngoing
  split <;> rfl

theorem abortOngoing_some (s : AppState) (hdl : Nat)
    (h : s.abortHandle = some hdl) :
    (abortOngoing s).abortedHandles = hdl :: s.abortedHandles := by
  unfold abortOngoing
  rw [h]

theorem sendProceed_error (content : String) (now : Nat) (s : AppState) :
    (sendProceed content now s).error = none := by
  simp only [sendProceed]
  split <;> rfl

theorem sendProceed_abortHandle (content : String) (now : Nat) (s : AppState) :
    (sendProceed content now s).abortHandle = some s.nextHandle := by
  simp only [sendProceed]
  split <;> simp [abortOngoing_nextHandle]

theorem sendProceed_nextHandle (content : String) (now : Nat) (s : AppState) :
    (sendProceed content now s).nextHandle = s.nextHandle + 1 := by
  simp only [sendProceed]
  split <;> simp [abortOngoing_nextHandle]

theorem sendProceed_aborts (content : String) (now : Nat) (s : AppState)
    (hdl : Nat) (h : s.abortHandle = some hdl) :
    hdl ∈ (sendProceed content now s).abortedHandles := by
  simp only [sendProceed]
  split <;> simp [abortOngoing_some s hdl h]

theorem autosaveArm_none (inp : AutosaveInput)
    (h : inp.isLoading = true ∨ inp.isSwitchingSession = true) :
    autosaveArm inp = none := by
  rcases h with h | h <;> simp [autosaveArm, h]

/-- While every effect re-run is suppressed, nothing is pending and nothing
    is saved. -/
theorem autosaveSuppressed :
    ∀ (events : List AutosaveEvent) (m : AutosaveMachine),
      m.pending = none →
      (∀ i ∈ depsInputs events, i.isLoading = true ∨ i.isSwitchingSession = true) →
      (events.foldl autosaveStep m).saves = m.saves
      ∧ (events.foldl autosaveStep m).pending = none
  | [], _, hp, _ => ⟨rfl, hp⟩
  | AutosaveEvent.depsChange inp :: rest, m, hp, hs => by
      have harm : autosaveArm inp = none :=
        autosaveArm_none inp (hs inp (by simp [depsInputs]))
      have ih := autosaveSuppressed rest { m with pending := autosaveArm inp }
        (by simp [harm]) (fun i hi => hs i (by simp [depsInputs, hi]))
      exact ⟨ih.1, ih.2⟩
  | AutosaveEvent.timerExpire :: rest, m, hp, hs => by
      have hstep : autosaveStep m AutosaveEvent.timerExpire = m := by
        simp [autosaveStep, hp]
      have ih := autosaveSuppressed rest m hp
        (fun i hi => hs i (by simp [depsInputs, hi]))
      simpa [hstep] using ih

/-- C2: when the delta stream of a generation runs to its end (no abort, no
    error, arbitrary timing and trailing-timer interleavings), the final
    content written to the assistant message is the concatenation, in arrival
    order, of every delta received, and it is also the last snapshot emitted,
    regardless of which intermediate snapshots were throttled away. -/
theorem C2_final_snapshot_eq_concat (es : List StreamEvent) (t0 : Nat)
    (h : ∀ e ∈ es, isDeltaOrTimer e = true) :
    (runStream (es ++ [StreamEvent.streamEnd]) t0).assistantContent
      = concatStrings (deltaChunks es)
    ∧ (runStream (es ++ [StreamEvent.streamEnd]) t0).emissions.getLast?
      = some (concatStrings (deltaChunks es)) := by
  have hrun := runDeltaTimer es (initStreamState t0) h rfl rfl
  have hfold : runStream (es ++ [StreamEvent.streamEnd]) t0
      = stepStream (es.foldl stepStream (initStreamState t0)) StreamEvent.streamEnd := by
    simp [runStream, List.foldl_append]
  have hfull : (es.foldl stepStream (initStreamState t0)).fullResponse
      = concatStrings (deltaChunks es) := by
    rw [hrun.2.2]
    exact strEmpty_append _
  have hstep : stepStream (es.foldl stepStream (initStreamState t0)) StreamEvent.streamEnd
      = emitSnapshot { es.foldl stepStream (initStreamState t0) with
                        ended := true, timerPending := false }
          (es.foldl stepStream (initStreamState t0)).fullResponse := by
    simp [stepStream, hrun.1, hrun.2.1]
  rw [hfold, hstep]
  constructor
  · simp [emitSnapshot, hfull]
  · simp [emitSnapshot, hfull]

/-- Witness for C2 at a concrete two-delta stream. -/
theorem C2_witness :
    (∀ e ∈ c2Events, isDeltaOrTimer e = true)
    ∧ (runStream (c2Events ++ [StreamEvent.streamEnd]) 0).assistantContent
        = concatStrings (deltaChunks c2Events)
    ∧ concatStrings (deltaChunks c2Events) = "Hi there" :=
  ⟨by decide, (C2_final_snapshot_eq_concat c2Events 0 (by decide)).1, by decide⟩

/-- C7: within a single generation, the sequence of content snapshots emitted
    to the UI is monotone non-decreasing in content length, over every trace
    of events (including cancellations and errors). -/
theorem C7_emissions_monotone (events : List StreamEvent) (t0 : Nat) :
    List.Chain' (fun a b : String => a.length ≤ b.length)
      (runStream events t0).emissions :=
  (emisInv_run events (initStreamState t0)
    ⟨List.chain'_nil, by simp [initStreamState]⟩).1

/-- C4 counterexample: a generation cancelled (abort signalled) before any
    content was committed emits no terminal snapshot, but — contrary to the
    claim — the empty assistant placeholder is NOT removed from the message
    list: the loop merely breaks, and the removing catch branch runs only on
    an AbortError exception, which the unwired abort signal never produces. -/
theorem C4_counterexample :
    (runStream [StreamEvent.abortSignal, StreamEvent.delta "Hello" 0] 0).emissions = []
    ∧ (runStream [StreamEvent.abortSignal, StreamEvent.delta "Hello" 0] 0).assistantPresent
        = true
    ∧ (runStream [StreamEvent.abortSignal, StreamEvent.delta "Hello" 0] 0).assistantContent
        = "" := by
  refine ⟨by decide, by decide, by decide⟩

/-- C4 amended: once cancellation is signalled, nothing visible changes any
    more — no further snapshot is emitted (in particular no terminal flush),
    the content stops growing, and the placeholder stays in the list whether
    or not content was committed; already-emitted snapshots are kept. -/
theorem C4_amended_cancellation (pre post : List StreamEvent) (t0 : Nat)
    (hpre : ∀ e ∈ pre, isStreamErrorEvent e = false)
    (hpost : ∀ e ∈ post, isStreamErrorEvent e = false) :
    (runStream (pre ++ StreamEvent.abortSignal :: post) t0).emissions
      = (runStream (pre ++ [StreamEvent.abortSignal]) t0).emissions
    ∧ (runStream (pre ++ StreamEvent.abortSignal :: post) t0).assistantContent
      = (runStream (pre ++ [StreamEvent.abortSignal]) t0).assistantContent
    ∧ (runStream (pre ++ StreamEvent.abortSignal :: post) t0).assistantPresent = true := by
  have hfold : runStream (pre ++ StreamEvent.abortSignal :: post) t0
      = post.foldl stepStream (runStream (pre ++ [StreamEvent.abortSignal]) t0) := by
    have hsplit : pre ++ StreamEvent.abortSignal :: post
        = (pre ++ [StreamEvent.abortSignal]) ++ post := by simp
    rw [hsplit]
    simp [runStream, List.foldl_append]
  have habort : runStream (pre ++ [StreamEvent.abortSignal]) t0
      = stepStream (runStream pre t0) StreamEvent.abortSignal := by
    simp [runStream, List.foldl_append]
  have hfrozen : Frozen (runStream (pre ++ [StreamEvent.abortSignal]) t0) := by
    rw [habort]
    by_cases hend : (runStream pre t0).ended = true
    · right
      simp [stepStream, hend]
    · left
      simp [stepStream, hend]
  have hobs := frozen_run post (runStream (pre ++ [StreamEvent.abortSignal]) t0)
    hfrozen hpost
  have hpres : (runStream (pre ++ [StreamEvent.abortSignal]) t0).assistantPresent
      = true := by
    apply present_run (pre ++ [StreamEvent.abortSignal]) (initStreamState t0) rfl
    intro e he
    rcases List.mem_append.mp he with h | h
    · exact hpre e h
    · simp only [List.mem_singleton] at h
      subst h
      rfl
  rw [hfold]
  exact ⟨hobs.1, hobs.2.1, by rw [hobs.2.2, hpres]⟩

/-- Witness for C4 amended: a chunk streams, the user cancels, a late chunk
    and the stream end arrive — the placeholder survives. -/
theorem C4_witness :
    (∀ e ∈ c4Pre, isStreamErrorEvent e = false)
    ∧ (∀ e ∈ c4Post, isStreamErrorEvent e = false)
    ∧ (runStream (c4Pre ++ StreamEvent.abortSignal :: c4Post) 0).assistantPresent
        = true :=
  ⟨by decide, by decide,
   (C4_amended_cancellation c4Pre c4Post 0 (by decide) (by decide)).2.2⟩

/-- C3 counterexample (Scenario C shape, N = 6): ten prior turns, empty
    summary, no persona — the built prompt is exactly the four most recent
    turns plus the new user turn; the longest, substantive (>50 chars) older
    turn is absent, although the claim requires the remaining budget to be
    filled with the longest older turns, and no ranking by content length
    occurs at all. -/
theorem C3_counterexample :
    c3Messages.length = 10
    ∧ buildMessageHistory "" none "" c3Messages c3User
        = [c3Msg 6 "m6", c3Msg 7 "m7", c3Msg 8 "m8", c3Msg 9 "m9", c3User]
    ∧ c3Msg 0 c3LongContent ∉ buildMessageHistory "" none "" c3Messages c3User
    ∧ 50 < c3LongContent.length
    ∧ (∀ m ∈ c3Messages, m.content.length ≤ c3LongContent.length) := by
  refine ⟨by decide, by decide, by decide, by decide, by decide⟩

/-- C3 amended: the prompt always contains exactly the most recent
    min(4, count) prior turns, unchanged and in order, between the preamble
    and the new user turn; when the prior-turn count is ≤ 4 every prior turn
    is included; older turns are never included and no length ranking
    exists. -/
theorem C3_amended_last4 (sp : String) (ch : Option Character) (sum : String)
    (msgs : List ChatMessage) (u : ChatMessage) :
    (msgs.length ≤ 4 →
      buildMessageHistory sp ch sum msgs u
        = promptPreamble sp ch sum ++ (msgs ++ [u]))
    ∧ buildMessageHistory sp ch sum msgs u
        = promptPreamble sp ch sum ++ (msgs.drop (msgs.length - 4) ++ [u])
    ∧ (4 ≤ msgs.length → (msgs.drop (msgs.length - 4)).length = 4) := by
  refine ⟨?_, ?_, ?_⟩
  · intro h
    have h0 : msgs.length - 4 = 0 := Nat.sub_eq_zero_of_le h
    simp [buildMessageHistory, promptPreamble, lastN, h0, List.append_assoc]
  · simp [buildMessageHistory, promptPreamble, lastN, List.append_assoc]
  · intro h
    simp only [List.length_drop]
    omega

/-- Witness for C3 amended with a three-turn history. -/
theorem C3_witness :
    c3wMsgs.length ≤ 4
    ∧ buildMessageHistory "" none "" c3wMsgs c3User
        = promptPreamble "" none "" ++ (c3wMsgs ++ [c3User]) :=
  ⟨by decide, (C3_amended_last4 "" none "" c3wMsgs c3User).1 (by decide)⟩

/-- C8: the prompt is assembled in the fixed order — with a persona bound,
    the first turn is a system turn whose content embeds the persona name,
    its description and the fixed in-character instruction; a non-empty
    rolling summary contributes a system turn reading "Conversation summary: "
    followed by the summary; the selected history subset follows in order and
    the new user turn comes last. -/
theorem C8_prompt_assembly (sp sum : String) (c : Character)
    (msgs : List ChatMessage) (u : ChatMessage) :
    buildMessageHistory sp (some c) sum msgs u
      = { id := 0, role := Role.system,
          content := effectiveSystemPrompt sp (some c), timestamp := 0 }
        :: (summaryMessages sum ++ (lastN 4 msgs ++ [u]))
    ∧ List.IsInfix c.name.data (effectiveSystemPrompt sp (some c)).data
    ∧ List.IsInfix c.description.data (effectiveSystemPrompt sp (some c)).data
    ∧ List.IsInfix neverBreakCharacter.data (effectiveSystemPrompt sp (some c)).data
    ∧ (¬ sum = "" → summaryMessages sum
        = [{ id := 1, role := Role.system,
             content := "Conversation summary: " ++ sum, timestamp := 0 }])
    ∧ (buildMessageHistory sp (some c) sum msgs u).getLast? = some u := by
  have hne := effectiveSystemPrompt_ne sp c
  refine ⟨?_, ?_, ?_, ?_, ?_, ?_⟩
  · simp [buildMessageHistory, systemMessages, hne, List.append_assoc]
  · exact infix_effectiveSystemPrompt sp c (name_infix_characterPrompt c)
  · exact infix_effectiveSystemPrompt sp c (description_infix_characterPrompt c)
  · exact infix_effectiveSystemPrompt sp c (neverBreak_infix_characterPrompt c)
  · intro hs
    simp [summaryMessages, hs]
  · have hsplit : buildMessageHistory sp (some c) sum msgs u
        = (systemMessages (effectiveSystemPrompt sp (some c))
            ++ summaryMessages sum ++ lastN 4 msgs) ++ [u] := by
      simp [buildMessageHistory, List.append_assoc]
    rw [hsplit, List.getLast?_concat]

/-- Witness for C8 with a persona, a non-empty summary, and one prior turn. -/
theorem C8_witness :
    (¬ ("The case so far." : String) = "")
    ∧ summaryMessages "The case so far."
        = [{ id := 1, role := Role.system,
             content := "Conversation summary: " ++ "The case so far.",
             timestamp := 0 }]
    ∧ (buildMessageHistory "" (some c8Char) "The case so far."
        [c3Msg 0 "a"] c3User).getLast? = some c3User :=
  ⟨by decide,
   (C8_prompt_assembly "" "The case so far." c8Char [c3Msg 0 "a"] c3User).2.2.2.2.1
     (by decide),
   (C8_prompt_assembly "" "The case so far." c8Char [c3Msg 0 "a"] c3User).2.2.2.2.2⟩

/-- C1 counterexample: a sendMessage call made while a generation is in
    progress (isLoading, with live abort handle 7) returns at the guard of
    line 46: the prior generation is not cancelled (no handle is aborted) and
    no fresh handle is installed — the state is unchanged, so there is no
    supersession. -/
theorem C1_counterexample :
    c1State.isLoading = true
    ∧ c1State.abortHandle = some 7
    ∧ sendMessage "B" 1000 c1State = c1State
    ∧ (sendMessage "B" 1000 c1State).abortedHandles = []
    ∧ (sendMessage "B" 1000 c1State).abortHandle = some 7 := by
  refine ⟨by decide, by decide, by decide, by decide, by decide⟩

/-- C1 amended: a sendMessage call made while a generation is in progress is
    a no-op (sends are blocked, not superseding); on every send that does
    proceed, any handle still installed is aborted first and a fresh handle
    (the next counter value) is installed before streaming starts. -/
theorem C1_amended_supersession (content : String) (now : Nat) (s : AppState) :
    (s.isLoading = true → sendMessage content now s = s)
    ∧ (¬ s.selectedModel = "" → s.isLoading = false → ¬ s.currentSessionId = none →
        providerConnected s.providerStatus s.selectedProvider = true →
        (∀ hdl, s.abortHandle = some hdl →
            hdl ∈ (sendMessage content now s).abortedHandles)
        ∧ (sendMessage content now s).abortHandle = some s.nextHandle
        ∧ (sendMessage content now s).nextHandle = s.nextHandle + 1) := by
  constructor
  · intro h
    simp [sendMessage, h]
  · intro h1 h2 h3 h4
    have hsend : sendMessage content now s = sendProceed content now s := by
      simp [sendMessage, h1, h2, h3, h4]
    rw [hsend]
    exact ⟨fun hdl hh => sendProceed_aborts content now s hdl hh,
           sendProceed_abortHandle content now s,
           sendProceed_nextHandle content now s⟩

/-- Witness for C1 amended: once the prior generation's finally block has
    cleared isLoading with a stale handle still installed, a proceeding send
    aborts handle 7 and installs the fresh handle 8. -/
theorem C1_amended_witness :
    (¬ c1bState.selectedModel = "" ∧ c1bState.isLoading = false
      ∧ ¬ c1bState.currentSessionId = none
      ∧ providerConnected c1bState.providerStatus c1bState.selectedProvider = true
      ∧ c1bState.abortHandle = some 7)
    ∧ 7 ∈ (sendMessage "B" 1000 c1bState).abortedHandles
    ∧ (sendMessage "B" 1000 c1bState).abortHandle = some c1bState.nextHandle :=
  ⟨⟨by decide, by decide, by decide, by decide, by decide⟩,
   ((C1_amended_supersession "B" 1000 c1bState).2 (by decide) (by decide)
     (by decide) (by decide)).1 7 (by decide),
   ((C1_amended_supersession "B" 1000 c1bState).2 (by decide) (by decide)
     (by decide) (by decide)).2.1⟩

/-- C10: a sendMessage call with no selected model, a generation in progress,
    or no current session id is the identity — message list, sessions list,
    store write log and everything else are unchanged; when the guards pass
    but the selected provider is reported unavailable, only the error message
    is set and nothing else changes. -/
theorem C10_guard_frame (content : String) (now : Nat) (s : AppState) :
    ((s.selectedModel = "" ∨ s.isLoading = true ∨ s.currentSessionId = none) →
      sendMessage content now s = s)
    ∧ (¬ (s.selectedModel = "" ∨ s.isLoading = true ∨ s.currentSessionId = none) →
        providerConnected s.providerStatus s.selectedProvider = false →
        sendMessage content now s
          = { s with error := some (notConnectedError s.selectedProvider) }) := by
  constructor
  · intro h
    simp [sendMessage, h]
  · intro h1 h2
    simp [sendMessage, h1, h2]

/-- Witness for C10: the selected provider is disconnected, so the send only
    sets the error banner. -/
theorem C10_witness :
    (¬ (c10State.selectedModel = "" ∨ c10State.isLoading = true
        ∨ c10State.currentSessionId = none)
      ∧ providerConnected c10State.providerStatus c10State.selectedProvider = false)
    ∧ sendMessage "hello" 1000 c10State
        = { c10State with
              error := some (notConnectedError c10State.selectedProvider) } :=
  ⟨⟨by decide, by decide⟩,
   (C10_guard_frame "hello" 1000 c10State).2 (by decide) (by decide)⟩

/-- C9: a non-AbortError failure of the stream surfaces the message as the
    user-visible error and rewrites the pending assistant message to an
    "Error: " marker; and every send that proceeds clears the previous error
    state (setError(null) at line 79 runs before streaming begins). -/
theorem C9_error_propagation (s : StreamState) (name msg : String)
    (content : String) (now : Nat) (st : AppState)
    (hend : s.ended = false) (hname : ¬ name = "AbortError")
    (h1 : ¬ st.selectedModel = "") (h2 : st.isLoading = false)
    (h3 : ¬ st.currentSessionId = none)
    (h4 : providerConnected st.providerStatus st.selectedProvider = true) :
    (stepStream s (StreamEvent.streamError name msg)).error = some msg
    ∧ (stepStream s (StreamEvent.streamError name msg)).assistantContent
        = "Error: " ++ msg
    ∧ (sendMessage content now st).error = none := by
  refine ⟨?_, ?_, ?_⟩
  · simp [stepStream, hend, hname]
  · simp [stepStream, hend, hname]
  · have hsend : sendMessage content now st = sendProceed content now st := by
      simp [sendMessage, h1, h2, h3, h4]
    rw [hsend]
    exact sendProceed_error content now st

/-- Witness for C9 at a fresh stream state and an idle app state. -/
theorem C9_witness :
    ((initStreamState 0).ended = false
      ∧ ¬ ("TypeError" : String) = "AbortError"
      ∧ ¬ c1bState.selectedModel = "" ∧ c1bState.isLoading = false
      ∧ ¬ c1bState.currentSessionId = none
      ∧ providerConnected c1bState.providerStatus c1bState.selectedProvider = true)
    ∧ (stepStream (initStreamState 0)
        (StreamEvent.streamError "TypeError" "Failed to stream chat response from Ollama")).error
        = some "Failed to stream chat response from Ollama"
    ∧ (sendMessage "hi" 0 c1bState).error = none :=
  ⟨⟨by decide, by decide, by decide, by decide, by decide, by decide⟩,
   (C9_error_propagation (initStreamState 0) "TypeError"
     "Failed to stream chat response from Ollama" "hi" 0 c1bState
     (by decide) (by decide) (by decide) (by decide) (by decide) (by decide)).1,
   (C9_error_propagation (initStreamState 0) "TypeError"
     "Failed to stream chat response from Ollama" "hi" 0 c1bState
     (by decide) (by decide) (by decide) (by decide) (by decide) (by decide)).2.2⟩

/-- C5 counterexample: the summarization job resolves while a newer
    generation is in progress (isLoading), yet its result replaces the
    rolling summary instead of being discarded — lines 244-281 apply
    setChatSummary unconditionally. -/
theorem C5_counterexample :
    c5State.isLoading = true
    ∧ (applySummaryJob c5State ["A fresh ", "summary."]).chatSummary
        = "A fresh summary."
    ∧ ¬ (applySummaryJob c5State ["A fresh ", "summary."]).chatSummary
        = c5State.chatSummary := by
  refine ⟨by decide, by decide, by decide⟩

/-- C5 amended: whenever the summarization job resolves, its trimmed result
    always replaces the conversation's rolling summary — regardless of any
    newer generation — and nothing else of the app state changes. -/
theorem C5_amended_summary_applied (s : AppState) (chunks : List String) :
    (applySummaryJob s chunks).chatSummary = jsTrim (concatStrings chunks)
    ∧ (applySummaryJob s chunks).isLoading = s.isLoading
    ∧ (applySummaryJob s chunks).messages = s.messages
    ∧ (applySummaryJob s chunks).error = s.error :=
  ⟨rfl, rfl, rfl, rfl⟩

/-- C6: while a generation is loading or a session switch is in progress,
    every effect re-run cancels the previously armed save timer and arms
    none (suppression, not queueing) — over a whole trace of suppressed
    re-runs no save fires; otherwise, for an initialized conversation, each
    re-run arms a single fresh 500ms timer after cancelling the previous
    one. -/
theorem C6_autosave_debounce (events : List AutosaveEvent) (inp : AutosaveInput)
    (prev : Option Nat)
    (hsup : ∀ i ∈ depsInputs events,
      i.isLoading = true ∨ i.isSwitchingSession = true) :
    (autosaveRun events).saves = 0
    ∧ (autosaveEffectRun inp prev).1 = prev
    ∧ ((inp.isLoading = true ∨ inp.isSwitchingSession = true) →
        (autosaveEffectRun inp prev).2 = none)
    ∧ (inp.isInitialized = true → ¬ inp.currentSessionId = none →
        inp.isLoading = false → inp.isSwitchingSession = false →
        (autosaveEffectRun inp prev).2 = some 500) := by
  refine ⟨?_, rfl, ?_, ?_⟩
  · exact (autosaveSuppressed events { pending := none, saves := 0 } rfl hsup).1
  · intro h
    exact autosaveArm_none inp h
  · intro h1 h2 h3 h4
    simp [autosaveEffectRun, autosaveArm, h1, h2, h3, h4]

/-- Witness for C6: a re-run during streaming then the timer deadline saves
    nothing; a quiet re-run arms the 500ms timer. -/
theorem C6_witness :
    ((∀ i ∈ depsInputs c6Events,
        i.isLoading = true ∨ i.isSwitchingSession = true)
      ∧ c6Inp.isInitialized = true ∧ ¬ c6Inp.currentSessionId = none
      ∧ c6Inp.isLoading = false ∧ c6Inp.isSwitchingSession = false)
    ∧ (autosaveRun c6Events).saves = 0
    ∧ (autosaveEffectRun c6Inp (some 500)).2 = some 500 :=
  ⟨⟨by decide, by decide, by decide, by decide, by decide⟩,
   (C6_autosave_debounce c6Events c6Inp (some 500) (by decide)).1,
   (C6_autosave_debounce c6Events c6Inp (some 500) (by decide)).2.2.2
     (by decide) (by decide) (by decide) (by decide)⟩

end ChaiChat
